import Mathlib

/-!
Shallow embedding of e2fsck/journal.c (the ext3 journal consistency and
recovery driver of e2fsprogs).

C integers are modelled as Nat.  On-disk journal-superblock fields are
32-bit big-endian; the model stores each field's decoded numeric value, so
the C idiom ntohl/htonl becomes the identity here.  External collaborators
(the problem channel, the inode service, ext2fs_bmap, the revoke table,
the recovery engine, and ext2fs_close/ext2fs_open) are oracles carried in
an Env record; the interactive problem channel is a list of boolean
answers consumed in order (an exhausted list answers "no").  Memory
allocation is assumed to succeed; the source's allocation-failure branches
(EXT2_ET_NO_MEMORY) are therefore not taken in the model.  The only block
the core itself accesses through the buffer layer is the journal
superblock block, so the Disk record carries just that block's contents
together with physical read/write counters and injectable I/O errors.
The World record also counts live buffer handles (mirroring the source's
bh_count debug counter) and live journal handles, which makes resource
leaks observable.
-/

namespace E2fsckJournal

/-- Error code EXT2_ET_NO_MEMORY (allocation failure). -/
def EXT2_ET_NO_MEMORY : Nat := 2133571398

/-- Error code EXT2_ET_BAD_INODE_NUM. -/
def EXT2_ET_BAD_INODE_NUM : Nat := 2133571365

/-- Error code EXT2_ET_UNSUPP_FEATURE. -/
def EXT2_ET_UNSUPP_FEATURE : Nat := 2133571377

/-- Error code EXT2_ET_RO_UNSUPP_FEATURE. -/
def EXT2_ET_RO_UNSUPP_FEATURE : Nat := 2133571378

/-- Error code EXT2_ET_CORRUPT_SUPERBLOCK. -/
def EXT2_ET_CORRUPT_SUPERBLOCK : Nat := 2133571404

/-- Error code EXT2_ET_FILE_RO. -/
def EXT2_ET_FILE_RO : Nat := 2133571385

/-- Journal magic number 0xC03B3998, as the decoded value of the four
big-endian on-disk bytes (JFS_MAGIC_NUMBER in jfs.h). -/
def JFS_MAGIC_NUMBER : Nat := 0xc03b3998

/-- Modelled from the spec: block-type tag of a V1 journal superblock
(jfs.h is not under src/; the spec fixes 1 = V1). -/
def JFS_SUPERBLOCK_V1 : Nat := 1

/-- Modelled from the spec: block-type tag of a V2 journal superblock
(jfs.h is not under src/; the spec fixes 2 = V2). -/
def JFS_SUPERBLOCK_V2 : Nat := 2

/-- Minimum legal journal length in blocks (JFS_MIN_JOURNAL_BLOCKS). -/
def JFS_MIN_JOURNAL_BLOCKS : Nat := 1024

/-- Modelled from the spec: the set of journal incompat feature bits this
core knows (jfs.h is not under src/; only the existence of unknown bits
matters to the claims). -/
def JFS_KNOWN_INCOMPAT_FEATURES : Nat := 1

/-- Modelled from the spec: the set of journal ro-compat feature bits
this core knows (jfs.h is not under src/). -/
def JFS_KNOWN_ROCOMPAT_FEATURES : Nat := 0

/-- On-disk journal superblock block (journal.c views the superblock
buffer's bytes through this layout).  The named fields are the 32-bit
big-endian words at offsets 0..44, stored decoded; rest holds the bytes
of the block beyond the fields the code names, so that the memset in
e2fsck_journal_reset_super is observable on the whole block. -/
structure JournalSuperblock where
  h_magic : Nat
  h_blocktype : Nat
  h_sequence : Nat
  s_blocksize : Nat
  s_maxlen : Nat
  s_first : Nat
  s_sequence : Nat
  s_start : Nat
  s_feature_compat : Nat
  s_feature_incompat : Nat
  s_feature_ro_compat : Nat
  rest : List Nat
deriving Repr, DecidableEq

/-- A journal superblock block whose bytes are all zero (e2fsck's
allocator zero-fills fresh memory). -/
def zeroJSB (restLen : Nat) : JournalSuperblock :=
  { h_magic := 0, h_blocktype := 0, h_sequence := 0, s_blocksize := 0,
    s_maxlen := 0, s_first := 0, s_sequence := 0, s_start := 0,
    s_feature_compat := 0, s_feature_incompat := 0, s_feature_ro_compat := 0,
    rest := List.replicate restLen 0 }

/-- Buffer handle (struct buffer_head in jfs_user.h, as used by
journal.c): block number, contents, uptodate/dirty flags and the last
I/O error. -/
structure BufferHead where
  b_blocknr : Nat
  b_size : Nat
  b_data : JournalSuperblock
  b_uptodate : Bool
  b_dirty : Bool
  b_err : Nat
deriving Repr, DecidableEq

/-- Read/write selector for ll_rw_block. -/
inductive RW where
  | READ
  | WRITE
deriving Repr, DecidableEq

/-- The underlying I/O channel, restricted to the journal superblock
block (the only block journal.c itself touches through the buffer
layer): its on-disk contents, injectable I/O errors, and counters of the
physical reads and writes issued. -/
structure Disk where
  jsb : JournalSuperblock
  read_err : Nat
  write_err : Nat
  reads : Nat
  writes : Nat
deriving Repr, DecidableEq

/-- Embedding of ll_rw_block (journal.c:71) for a single buffer (every
call site passes nr = 1): a READ on a non-uptodate buffer issues one
physical read (recording the error on failure); a WRITE on a dirty
buffer issues one physical write; every other combination is a no-op. -/
def ll_rw_block (rw : RW) (d : Disk) (bh : BufferHead) : Disk × BufferHead :=
  match rw with
  | .READ =>
    if !bh.b_uptodate then
      if d.read_err ≠ 0 then
        (d, { bh with b_err := d.read_err })
      else
        ({ d with reads := d.reads + 1 },
         { bh with b_data := d.jsb, b_uptodate := true })
    else (d, bh)
  | .WRITE =>
    if bh.b_dirty then
      if d.write_err ≠ 0 then
        (d, { bh with b_err := d.write_err })
      else
        ({ d with jsb := bh.b_data, writes := d.writes + 1 },
         { bh with b_dirty := false, b_uptodate := true })
    else (d, bh)

/-- Embedding of mark_buffer_dirty (journal.c:114). -/
def mark_buffer_dirty (bh : BufferHead) : BufferHead :=
  { bh with b_dirty := true }

/-- Embedding of buffer_uptodate (journal.c:128). -/
def buffer_uptodate (bh : BufferHead) : Bool :=
  bh.b_uptodate

/-- Embedding of wait_on_buffer (journal.c:133): a synchronous read when
the buffer is not uptodate. -/
def wait_on_buffer (d : Disk) (bh : BufferHead) : Disk × BufferHead :=
  if !bh.b_uptodate then ll_rw_block .READ d bh else (d, bh)

/-- Filesystem superblock fields journal.c reads or writes
(struct ext2_super_block).  The three feature bits the code tests are
modelled as Bools (the code only sets and clears those single bits);
uuid_is_null(s_journal_uuid) is s_journal_uuid = 0 and uuid_clear /
memset is assignment of 0.  s_first_ino backs EXT2_FIRST_INODE. -/
structure Ext2Super where
  has_journal : Bool
  recover : Bool
  valid : Bool
  s_journal_inum : Nat
  s_journal_dev : Nat
  s_journal_uuid : Nat
  s_first_ino : Nat
deriving Repr, DecidableEq

/-- Modelled from the spec: EXT2_FIRST_INODE, the first non-reserved
inode number of the filesystem (ext2_fs.h is not under src/). -/
def EXT2_FIRST_INODE (sb : Ext2Super) : Nat :=
  sb.s_first_ino

/-- Static context: the E2F_OPT_READONLY option bit, the filesystem
block size, and the parameters e2fsck_run_ext3_journal saves for the
reopen (superblock offset and I/O manager, the latter just a tag). -/
structure Ctx where
  ro : Bool
  blocksize : Nat
  superblock : Nat
  io_mgr : Nat
deriving Repr, DecidableEq

/-- Problem codes journal.c raises on the problem channel. -/
inductive Problem where
  | PR_0_JOURNAL_UNSUPP_DEV
  | PR_0_JOURNAL_UNSUPP_UUID
  | PR_0_JOURNAL_BAD_DEV
  | PR_0_JOURNAL_BAD_UUID
  | PR_0_JOURNAL_BAD_INODE
  | PR_0_JOURNAL_RECOVER_SET
  | PR_0_JOURNAL_BAD_SUPER
  | PR_0_JOURNAL_UNSUPP_SUPER
  | PR_0_JOURNAL_HAS_JOURNAL
  | PR_0_JOURNAL_RESET_JOURNAL
deriving Repr, DecidableEq

/-- Mutable world threaded through the driver: the filesystem superblock
and its dirty flag, the remaining problem-channel answers, the I/O
channel, counters of live buffer handles (the source's bh_count) and
live journal handles, and the open state plus reopen log used by
e2fsck_run_ext3_journal. -/
structure World where
  super : Ext2Super
  super_dirty : Bool
  answers : List Bool
  disk : Disk
  bh_count : Nat
  journal_count : Nat
  fs_open : Bool
  reopen_log : List (Nat × Nat × Nat)
deriving Repr, DecidableEq

/-- The problem channel: fix_problem poses a yes/no question and the
oracle answer list supplies the reply; an exhausted list replies "no". -/
def fix_problem (w : World) (p : Problem) : Bool × World :=
  match w.answers with
  | [] => (false, w)
  | a :: restAns => (a, { w with answers := restAns })

/-- Embedding of getblk (journal.c:53): allocate a fresh, zero-filled,
non-uptodate, clean buffer handle; no I/O occurs. -/
def getblk (w : World) (blocknr blocksize : Nat) : World × BufferHead :=
  ({ w with bh_count := w.bh_count + 1 },
   { b_blocknr := blocknr, b_size := blocksize, b_data := zeroJSB blocksize,
     b_uptodate := false, b_dirty := false, b_err := 0 })

/-- Embedding of brelse (journal.c:119): write back if dirty, then free
the handle. -/
def brelse (w : World) (bh : BufferHead) : World :=
  let d := if bh.b_dirty then (ll_rw_block .WRITE w.disk bh).1 else w.disk
  { w with disk := d, bh_count := w.bh_count - 1 }

/-- Embedding of e2fsck_clear_recover (journal.c:140): clear the
needs-recovery incompat bit, clear EXT2_VALID_FS when an error is
reported, and mark the superblock dirty. -/
def e2fsck_clear_recover (w : World) (error : Bool) : World :=
  { w with
    super := { w.super with recover := false, valid := w.super.valid && !error }
    super_dirty := true }

/-- Raw journal inode fields journal.c reads (struct ext2_inode). -/
structure Ext2Inode where
  i_links_count : Nat
  i_mode : Nat
  i_size : Nat
deriving Repr, DecidableEq

/-- LINUX_S_ISREG: the file-type bits of i_mode name a regular file. -/
def LINUX_S_ISREG (mode : Nat) : Bool :=
  Nat.land mode 0xf000 == 0x8000

/-- Oracle for the external collaborators: the result of
ext2fs_read_inode on the journal inode, the retval and phys output of
ext2fs_bmap for logical block 0, the results of journal_init_revoke and
of -journal_recover, and the result of the ext2fs_open reopen together
with the superblock it would read back from the replayed image. -/
structure Env where
  read_inode_err : Nat
  inode : Ext2Inode
  bmap_err : Nat
  bmap_phys : Nat
  revoke_err : Nat
  recover_err : Nat
  reopen_err : Nat
  reopen_super : Ext2Super
deriving Repr, DecidableEq

/-- Embedding of bmap (journal.c:37): call ext2fs_bmap; when it fails,
only report the error code on the diagnostic channel (the second
component) and still return the phys output value. -/
def bmap (env : Env) : Nat × List Nat :=
  let retval := env.bmap_err
  let diag := if retval ≠ 0 then [retval] else []
  (env.bmap_phys, diag)

/-- Journal handle (journal_t as used by journal.c).  j_superblock in
the source aliases j_sb_buffer->b_data; the model reads and writes the
buffer's b_data directly. -/
structure JournalT where
  j_blocksize : Nat
  j_maxlen : Nat
  j_format_version : Nat
  j_tail_sequence : Nat
  j_transaction_sequence : Nat
  j_tail : Nat
  j_first : Nat
  j_last : Nat
  j_inode_ino : Nat
  j_sb_buffer : BufferHead
deriving Repr, DecidableEq

/-- Embedding of e2fsck_journal_init_inode (journal.c:150): read the
journal inode, validate it (link count, regular file, minimum length,
bmap of block 0 non-zero), and allocate the superblock buffer at the
mapped block -- with no I/O yet.  Allocation is assumed to succeed. -/
def e2fsck_journal_init_inode (ctx : Ctx) (env : Env) (w : World)
    (journal_inum : Nat) : World × Except Nat JournalT :=
  let w := { w with journal_count := w.journal_count + 1 }
  if env.read_inode_err ≠ 0 then
    ({ w with journal_count := w.journal_count - 1 }, .error env.read_inode_err)
  else
    let inode := env.inode
    let j_blocksize := ctx.blocksize
    let j_maxlen := inode.i_size / j_blocksize
    let start := (bmap env).1
    if inode.i_links_count = 0 || !LINUX_S_ISREG inode.i_mode ||
       j_maxlen < JFS_MIN_JOURNAL_BLOCKS || start == 0 then
      ({ w with journal_count := w.journal_count - 1 },
       .error EXT2_ET_BAD_INODE_NUM)
    else
      let gb := getblk w start j_blocksize
      let w := gb.1
      let bh := gb.2
      (w, .ok { j_blocksize := j_blocksize, j_maxlen := j_maxlen,
                j_format_version := 0, j_tail_sequence := 0,
                j_transaction_sequence := 0, j_tail := 0, j_first := 0,
                j_last := 0, j_inode_ino := journal_inum, j_sb_buffer := bh })

/-- Second uuid check of e2fsck_get_journal (journal.c:249), entered also
when the has-journal bit is clear, then the call into
e2fsck_journal_init_inode (journal.c:259). -/
def e2fsck_get_journal_uuid2 (ctx : Ctx) (env : Env) (w : World) :
    World × Except Nat JournalT :=
  if w.super.s_journal_uuid ≠ 0 then
    let pr := fix_problem w .PR_0_JOURNAL_BAD_UUID
    let w := pr.2
    if pr.1 then
      let w := { w with
        super := { w.super with s_journal_uuid := 0, valid := false }
        super_dirty := true }
      e2fsck_journal_init_inode ctx env w w.super.s_journal_inum
    else (w, .error EXT2_ET_UNSUPP_FEATURE)
  else
    e2fsck_journal_init_inode ctx env w w.super.s_journal_inum

/-- Second device check of e2fsck_get_journal (journal.c:241), entered
also when the has-journal bit is clear. -/
def e2fsck_get_journal_dev2 (ctx : Ctx) (env : Env) (w : World) :
    World × Except Nat JournalT :=
  if w.super.s_journal_dev ≠ 0 then
    let pr := fix_problem w .PR_0_JOURNAL_BAD_DEV
    let w := pr.2
    if pr.1 then
      let w := { w with
        super := { w.super with s_journal_dev := 0, valid := false }
        super_dirty := true }
      e2fsck_get_journal_uuid2 ctx env w
    else (w, .error EXT2_ET_UNSUPP_FEATURE)
  else
    e2fsck_get_journal_uuid2 ctx env w

/-- Inode-number check inside the has-journal block of
e2fsck_get_journal (journal.c:237). -/
def e2fsck_get_journal_inum (ctx : Ctx) (env : Env) (w : World) :
    World × Except Nat JournalT :=
  if w.super.s_journal_inum = 0 then (w, .error EXT2_ET_BAD_INODE_NUM)
  else e2fsck_get_journal_dev2 ctx env w

/-- Uuid check inside the has-journal block of e2fsck_get_journal
(journal.c:227). -/
def e2fsck_get_journal_hj_uuid (ctx : Ctx) (env : Env) (w : World) :
    World × Except Nat JournalT :=
  if w.super.s_journal_uuid ≠ 0 then
    let pr := fix_problem w .PR_0_JOURNAL_UNSUPP_UUID
    let w := pr.2
    if pr.1 then
      let w := { w with
        super := { w.super with s_journal_uuid := 0, valid := false }
        super_dirty := true }
      e2fsck_get_journal_inum ctx env w
    else (w, .error EXT2_ET_UNSUPP_FEATURE)
  else
    e2fsck_get_journal_inum ctx env w

/-- Embedding of e2fsck_get_journal (journal.c:209): reconcile the
external-device and uuid fields through the problem channel, reject a
zero journal inode number when the has-journal bit is set, then build
the journal from the inode. -/
def e2fsck_get_journal (ctx : Ctx) (env : Env) (w : World) :
    World × Except Nat JournalT :=
  if w.super.has_journal then
    if w.super.s_journal_dev ≠ 0 then
      let pr := fix_problem w .PR_0_JOURNAL_UNSUPP_DEV
      let w := pr.2
      if pr.1 then
        let w := { w with
          super := { w.super with s_journal_dev := 0, valid := false }
          super_dirty := true }
        e2fsck_get_journal_hj_uuid ctx env w
      else (w, .error EXT2_ET_UNSUPP_FEATURE)
    else
      e2fsck_get_journal_hj_uuid ctx env w
  else
    e2fsck_get_journal_dev2 ctx env w

/-- Embedding of e2fsck_journal_fix_bad_inode (journal.c:262): when a
journal is advertised, offer to delete it (clearing has_journal and the
inode number and forcing a full fsck); otherwise, when only the recovery
bit is set, offer to clear it. -/
def e2fsck_journal_fix_bad_inode (w : World) : World × Nat :=
  let recover := w.super.recover
  let has_journal := w.super.has_journal
  if has_journal || w.super.s_journal_inum != 0 then
    let pr := fix_problem w .PR_0_JOURNAL_BAD_INODE
    let w := pr.2
    if pr.1 then
      let w := { w with
        super := { w.super with has_journal := false, s_journal_inum := 0 } }
      (e2fsck_clear_recover w true, 0)
    else (w, EXT2_ET_BAD_INODE_NUM)
  else if recover then
    let pr := fix_problem w .PR_0_JOURNAL_RECOVER_SET
    let w := pr.2
    if pr.1 then (e2fsck_clear_recover w true, 0)
    else (w, EXT2_ET_UNSUPP_FEATURE)
  else (w, 0)

/-- Modelled from the spec: JFS_HAS_INCOMPAT_FEATURE against the
complement of the known incompat set (the macro lives in jfs_user.h,
outside src/; spec section 4.3 step 4). -/
def JFS_HAS_INCOMPAT_FEATURE (jsb : JournalSuperblock) : Bool :=
  Nat.land jsb.s_feature_incompat (0xffffffff - JFS_KNOWN_INCOMPAT_FEATURES) != 0

/-- Modelled from the spec: JFS_HAS_RO_COMPAT_FEATURE against the
complement of the known ro-compat set (spec section 4.3 step 5). -/
def JFS_HAS_RO_COMPAT_FEATURE (jsb : JournalSuperblock) : Bool :=
  Nat.land jsb.s_feature_ro_compat (0xffffffff - JFS_KNOWN_ROCOMPAT_FEATURES) != 0

/-- Embedding of e2fsck_journal_load (journal.c:314): read the journal
superblock, dispatch to the bad-inode path on a wrong magic, check the
format version and feature bits, check the block size, reconcile maxlen
against the inode-derived length, and populate the live log window. -/
def e2fsck_journal_load (ctx : Ctx) (w : World) (journal : JournalT) :
    World × JournalT × Nat :=
  let rd := ll_rw_block .READ w.disk journal.j_sb_buffer
  let jbh := rd.2
  let w := { w with disk := rd.1 }
  let journal := { journal with j_sb_buffer := jbh }
  if jbh.b_err ≠ 0 then (w, journal, jbh.b_err)
  else
    let jsb := jbh.b_data
    if jsb.h_magic ≠ JFS_MAGIC_NUMBER then
      let pr := e2fsck_journal_fix_bad_inode w
      (pr.1, journal, pr.2)
    else
      let fv : Option Nat :=
        if jsb.h_blocktype = JFS_SUPERBLOCK_V1 then some 1
        else if jsb.h_blocktype = JFS_SUPERBLOCK_V2 then some 2
        else none
      match fv with
      | none => (w, journal, EXT2_ET_UNSUPP_FEATURE)
      | some v =>
        let journal := { journal with j_format_version := v }
        if JFS_HAS_INCOMPAT_FEATURE jsb then
          (w, journal, EXT2_ET_UNSUPP_FEATURE)
        else if JFS_HAS_RO_COMPAT_FEATURE jsb then
          (w, journal, EXT2_ET_RO_UNSUPP_FEATURE)
        else if jsb.s_blocksize ≠ journal.j_blocksize then
          (w, journal, EXT2_ET_CORRUPT_SUPERBLOCK)
        else if jsb.s_maxlen < journal.j_maxlen then
          (w, { journal with
                j_maxlen := jsb.s_maxlen
                j_tail_sequence := jsb.s_sequence
                j_transaction_sequence := jsb.s_sequence
                j_tail := jsb.s_start
                j_first := jsb.s_first
                j_last := jsb.s_maxlen }, 0)
        else if jsb.s_maxlen > journal.j_maxlen then
          (w, journal, EXT2_ET_CORRUPT_SUPERBLOCK)
        else
          (w, { journal with
                j_tail_sequence := jsb.s_sequence
                j_transaction_sequence := jsb.s_sequence
                j_tail := jsb.s_start
                j_first := jsb.s_first
                j_last := jsb.s_maxlen }, 0)

/-- Embedding of e2fsck_journal_reset_super (journal.c:396): keep a
valid V1 signature, otherwise stamp a fresh V2 header; zero every byte
beyond the 12-byte header; set block size, maxlen, first = 1 and
sequence = 1; then hand the buffer to ll_rw_block WRITE. -/
def e2fsck_journal_reset_super (ctx : Ctx) (w : World) (journal : JournalT) :
    World × JournalT :=
  let jsb := journal.j_sb_buffer.b_data
  let jsb :=
    if jsb.h_magic ≠ JFS_MAGIC_NUMBER || jsb.h_blocktype ≠ JFS_SUPERBLOCK_V1 then
      { jsb with h_magic := JFS_MAGIC_NUMBER, h_blocktype := JFS_SUPERBLOCK_V2 }
    else jsb
  let jsb :=
    { jsb with
      s_blocksize := 0
      s_maxlen := 0
      s_first := 0
      s_sequence := 0
      s_start := 0
      s_feature_compat := 0
      s_feature_incompat := 0
      s_feature_ro_compat := 0
      rest := List.replicate jsb.rest.length 0 }
  let jsb :=
    { jsb with
      s_blocksize := ctx.blocksize
      s_maxlen := journal.j_maxlen
      s_first := 1
      s_sequence := 1 }
  let bh := { journal.j_sb_buffer with b_data := jsb }
  let wr := ll_rw_block .WRITE w.disk bh
  ({ w with disk := wr.1 }, { journal with j_sb_buffer := wr.2 })

/-- Embedding of e2fsck_journal_fix_corrupt_super (journal.c:428): when
a journal is advertised, offer to rewrite the superblock (resetting the
transaction sequence and clearing recovery); otherwise fall back to the
bad-inode path. -/
def e2fsck_journal_fix_corrupt_super (ctx : Ctx) (w : World)
    (journal : JournalT) : World × JournalT × Nat :=
  let recover := w.super.recover
  if w.super.has_journal then
    let pr := fix_problem w .PR_0_JOURNAL_BAD_SUPER
    let w := pr.2
    if pr.1 then
      let rs := e2fsck_journal_reset_super ctx w journal
      let journal := { rs.2 with j_transaction_sequence := 1 }
      (e2fsck_clear_recover rs.1 recover, journal, 0)
    else (w, journal, EXT2_ET_CORRUPT_SUPERBLOCK)
  else
    let pr := e2fsck_journal_fix_bad_inode w
    if pr.2 ≠ 0 then (pr.1, journal, EXT2_ET_CORRUPT_SUPERBLOCK)
    else (pr.1, journal, 0)

/-- Embedding of e2fsck_journal_release (journal.c:452): on a writable
image, write the committed sequence into the superblock buffer, zero its
start field when reset is requested, and mark the buffer dirty; then
release the buffer (write-back happens in brelse) and free the handle. -/
def e2fsck_journal_release (ctx : Ctx) (w : World) (journal : JournalT)
    (reset : Bool) : World :=
  let bh :=
    if !ctx.ro then
      let jsb := journal.j_sb_buffer.b_data
      let jsb := { jsb with s_sequence := journal.j_transaction_sequence }
      let jsb := if reset then { jsb with s_start := 0 } else jsb
      mark_buffer_dirty { journal.j_sb_buffer with b_data := jsb }
    else journal.j_sb_buffer
  let w := brelse w bh
  { w with journal_count := w.journal_count - 1 }

/-- Clearing branch of the no_has_journal block (journal.c:520-535):
compute force_fsck from the recovery bit and a reserved journal inode,
clear the three journal fields, and clear recovery. -/
def noHasJournalClear (sp : Ext2Super) : Ext2Super :=
  let force_fsck := sp.recover || decide (sp.s_journal_inum < EXT2_FIRST_INODE sp)
  { sp with
    s_journal_inum := 0
    s_journal_dev := 0
    s_journal_uuid := 0
    recover := false
    valid := sp.valid && !force_fsck }

/-- The no_has_journal loop of e2fsck_check_ext3_journal
(journal.c:516-540), over the superblock flags, the super-dirty flag and
the remaining answers.  Declining PR_0_JOURNAL_RECOVER_SET loops back
(the source's goto).  When the answer list is exhausted fix_problem
answers "no"; the iteration the goto would re-enter with no answers left
is inlined in the two empty-list branches (it asks
PR_0_JOURNAL_HAS_JOURNAL, gets "no", and takes the read-write or
read-only else branch). -/
def noHasJournalLoop (ctx : Ctx) (ans : List Bool) (sp : Ext2Super)
    (dirty : Bool) : Ext2Super × Bool × List Bool :=
  if sp.has_journal then (sp, dirty, ans)
  else
    match ans with
    | [] =>
      if !ctx.ro then ({ sp with has_journal := true }, true, [])
      else (sp, dirty, [])
    | a1 :: restAns =>
      if a1 then
        if sp.recover then
          match restAns with
          | [] =>
            if !ctx.ro then ({ sp with has_journal := true }, true, [])
            else (sp, dirty, [])
          | a2 :: restAns2 =>
            if a2 then (noHasJournalClear sp, true, restAns2)
            else noHasJournalLoop ctx restAns2 sp dirty
        else (noHasJournalClear sp, true, restAns)
      else
        if !ctx.ro then ({ sp with has_journal := true }, true, restAns)
        else (sp, dirty, restAns)

/-- Embedding of e2fsck_check_ext3_journal (journal.c:474): exit early
when no journal is advertised anywhere; get and load the journal,
routing failures to the interactive repair paths; run the
no_has_journal reconciliation loop; offer to reset a journal that has
data although recovery is not pending; release the journal. -/
def e2fsck_check_ext3_journal (ctx : Ctx) (env : Env) (w : World) :
    World × Nat :=
  let recover := w.super.recover
  if !w.super.has_journal && !recover && w.super.s_journal_inum == 0 &&
     w.super.s_journal_dev == 0 && w.super.s_journal_uuid == 0 then
    (w, 0)
  else
    let gj := e2fsck_get_journal ctx env w
    match gj.2 with
    | .error retval =>
      if retval = EXT2_ET_BAD_INODE_NUM then e2fsck_journal_fix_bad_inode gj.1
      else (gj.1, retval)
    | .ok journal0 =>
      let ld := e2fsck_journal_load ctx gj.1 journal0
      let w := ld.1
      let journal := ld.2.1
      let retval := ld.2.2
      if retval ≠ 0 then
        if retval = EXT2_ET_CORRUPT_SUPERBLOCK then
          let fc := e2fsck_journal_fix_corrupt_super ctx w journal
          (fc.1, fc.2.2)
        else (w, retval)
      else
          let lp := noHasJournalLoop ctx w.answers w.super w.super_dirty
          let w := { w with super := lp.1, super_dirty := lp.2.1, answers := lp.2.2 }
          let wr : World × Bool :=
            if w.super.has_journal && !w.super.recover &&
               journal.j_sb_buffer.b_data.s_start != 0 then
              let pr := fix_problem w .PR_0_JOURNAL_RESET_JOURNAL
              if pr.1 then
                ({ pr.2 with
                   super := { pr.2.super with valid := false }
                   super_dirty := true }, true)
              else (pr.2, false)
            else (w, false)
          let w := e2fsck_journal_release ctx wr.1 journal wr.2
          (w, retval)

/-- Embedding of recover_ext3_journal (journal.c:567): get and load the
journal, initialise the revoke table (external), run the recovery
engine (external), and release the journal with reset. -/
def recover_ext3_journal (ctx : Ctx) (env : Env) (w : World) : World × Nat :=
  let gj := e2fsck_get_journal ctx env w
  match gj.2 with
  | .error retval => (gj.1, retval)
  | .ok journal0 =>
    let ld := e2fsck_journal_load ctx gj.1 journal0
    let w := ld.1
    let journal := ld.2.1
    let retval := ld.2.2
    if retval ≠ 0 then (w, retval)
    else if env.revoke_err ≠ 0 then (w, env.revoke_err)
    else
      let retval := env.recover_err
      let w := e2fsck_journal_release ctx w journal true
      (w, retval)

/-- Outcome of e2fsck_run_ext3_journal: fatal_error aborts the process
when the reopen fails; otherwise the recovery result is returned. -/
inductive RunResult where
  | fatal (code : Nat)
  | done (retval : Nat)
deriving Repr, DecidableEq

/-- Embedding of e2fsck_run_ext3_journal (journal.c:692): refuse on a
read-only image; run recovery; unconditionally close and reopen the
filesystem at the saved block size, superblock offset and I/O manager
(fatal on failure); clear the recovery bit, clearing EXT2_VALID_FS
exactly when recovery failed; return the recovery result. -/
def e2fsck_run_ext3_journal (ctx : Ctx) (env : Env) (w : World) :
    World × RunResult :=
  let blocksize := ctx.blocksize
  if ctx.ro then (w, .done EXT2_ET_FILE_RO)
  else
    let rec0 := recover_ext3_journal ctx env w
    let recover_retval := rec0.2
    let w := { rec0.1 with fs_open := false }
    if env.reopen_err ≠ 0 then (w, .fatal env.reopen_err)
    else
      let w := { w with
        fs_open := true
        super := env.reopen_super
        super_dirty := false
        reopen_log := w.reopen_log ++ [(blocksize, ctx.superblock, ctx.io_mgr)] }
      let w := e2fsck_clear_recover w (recover_retval != 0)
      (w, .done recover_retval)

/-- Read-only context used by the concrete instances. -/
def ctxRO : Ctx :=
  { ro := true
    blocksize := 1024
    superblock := 0
    io_mgr := 7 }

/-- Read-write context used by the concrete instances. -/
def ctxRW : Ctx :=
  { ro := false
    blocksize := 1024
    superblock := 0
    io_mgr := 7 }

/-- A filesystem superblock with no journal advertised anywhere. -/
def superClean : Ext2Super :=
  { has_journal := false
    recover := false
    valid := true
    s_journal_inum := 0
    s_journal_dev := 0
    s_journal_uuid := 0
    s_first_ino := 11 }

/-- A well-formed on-disk journal superblock matching ctxRW/ctxRO:
V2, block size 1024, 2048 blocks, empty log. -/
def jsbGood : JournalSuperblock :=
  { h_magic := JFS_MAGIC_NUMBER
    h_blocktype := JFS_SUPERBLOCK_V2
    h_sequence := 0
    s_blocksize := 1024
    s_maxlen := 2048
    s_first := 1
    s_sequence := 5
    s_start := 0
    s_feature_compat := 0
    s_feature_incompat := 0
    s_feature_ro_compat := 0
    rest := [] }

/-- A healthy I/O channel holding jsbGood. -/
def diskGood : Disk :=
  { jsb := jsbGood
    read_err := 0
    write_err := 0
    reads := 0
    writes := 0 }

/-- A valid journal inode: one link, regular file, 2048 blocks long. -/
def inodeGood : Ext2Inode :=
  { i_links_count := 1
    i_mode := 0x8180
    i_size := 2048 * 1024 }

/-- An oracle where every external call succeeds. -/
def envGood : Env :=
  { read_inode_err := 0
    inode := inodeGood
    bmap_err := 0
    bmap_phys := 100
    revoke_err := 0
    recover_err := 0
    reopen_err := 0
    reopen_super := superClean }

/-- Baseline world: clean superblock, healthy disk, no answers queued. -/
def wBase : World :=
  { super := superClean
    super_dirty := false
    answers := []
    disk := diskGood
    bh_count := 0
    journal_count := 0
    fs_open := true
    reopen_log := [] }

/-- World for the C1 counterexample: no has-journal bit but recovery
pending on a valid journal inode, image read-only, and the user
declines the PR_0_JOURNAL_HAS_JOURNAL fix. -/
def wC1 : World :=
  { wBase with
    super := { superClean with recover := true, s_journal_inum := 12 }
    answers := [false] }

/-- World for the C2 counterexample: journal advertised, disk holds a
block with the wrong magic, and the user accepts the bad-inode repair. -/
def wC2 : World :=
  { wBase with
    super := { superClean with has_journal := true, s_journal_inum := 12 }
    answers := [true]
    disk := { diskGood with jsb := { jsbGood with h_magic := 0 } } }

/-- A journal handle as e2fsck_journal_init_inode builds it over ctxRW:
fresh superblock buffer at block 100, 2048 blocks. -/
def jFresh : JournalT :=
  { j_blocksize := 1024
    j_maxlen := 2048
    j_format_version := 0
    j_tail_sequence := 0
    j_transaction_sequence := 0
    j_tail := 0
    j_first := 0
    j_last := 0
    j_inode_ino := 12
    j_sb_buffer :=
      { b_blocknr := 100
        b_size := 1024
        b_data := zeroJSB 1024
        b_uptodate := false
        b_dirty := false
        b_err := 0 } }

/-- World for the C3 failing input: journal advertised, but the on-disk
journal superblock has an unrecognised block type, so loading fails
with EXT2_ET_UNSUPP_FEATURE. -/
def wC3 : World :=
  { wBase with
    super := { superClean with has_journal := true, s_journal_inum := 12 }
    disk := { diskGood with jsb := { jsbGood with h_blocktype := 7 } } }

/-- A journal handle whose superblock buffer has been loaded (uptodate,
clean) with jsbGood, as after a successful e2fsck_journal_load. -/
def jLoaded : JournalT :=
  { jFresh with
    j_transaction_sequence := 5
    j_sb_buffer := { jFresh.j_sb_buffer with b_data := jsbGood, b_uptodate := true } }

/-!
Helper lemmas shared by the claim theorems.
-/

lemma fix_problem_pres (w : World) (p : Problem) :
    (fix_problem w p).2.super = w.super ∧
    (fix_problem w p).2.disk = w.disk ∧
    (fix_problem w p).2.bh_count = w.bh_count ∧
    (fix_problem w p).2.journal_count = w.journal_count := by
  unfold fix_problem
  cases w.answers <;> simp

lemma clear_recover_pres (w : World) (e : Bool) :
    (e2fsck_clear_recover w e).super.has_journal = w.super.has_journal ∧
    (e2fsck_clear_recover w e).super.s_journal_dev = w.super.s_journal_dev ∧
    (e2fsck_clear_recover w e).super.s_journal_uuid = w.super.s_journal_uuid ∧
    (e2fsck_clear_recover w e).super.recover = false ∧
    (e2fsck_clear_recover w e).disk = w.disk := by
  simp [e2fsck_clear_recover]

lemma ll_read_spec (d : Disk) (bh : BufferHead) :
    (ll_rw_block .READ d bh).1.reads ≤ d.reads + 1 ∧
    (ll_rw_block .READ d bh).1.writes = d.writes ∧
    (ll_rw_block .READ d bh).1.write_err = d.write_err ∧
    (ll_rw_block .READ d bh).2.b_dirty = bh.b_dirty := by
  simp only [ll_rw_block]
  split
  · split <;> simp
  · simp

lemma fbi_spec (w w' : World) (r : Nat)
    (h : e2fsck_journal_fix_bad_inode w = (w', r)) :
    w'.super.s_journal_dev = w.super.s_journal_dev ∧
    w'.super.s_journal_uuid = w.super.s_journal_uuid ∧
    w'.disk = w.disk ∧
    (r = 0 → w'.super.has_journal = false ∧ w'.super.recover = false) := by
  obtain ⟨hp1, hp2, -, -⟩ := fix_problem_pres w .PR_0_JOURNAL_BAD_INODE
  obtain ⟨hq1, hq2, -, -⟩ := fix_problem_pres w .PR_0_JOURNAL_RECOVER_SET
  unfold e2fsck_journal_fix_bad_inode at h
  simp only [] at h
  split at h
  · split at h
    · injection h with h1 h2
      subst h1
      subst h2
      refine ⟨by simp [e2fsck_clear_recover, hp1], by simp [e2fsck_clear_recover, hp1],
              by simp [e2fsck_clear_recover, hp2], ?_⟩
      intro _
      simp [e2fsck_clear_recover]
    · injection h with h1 h2
      subst h1
      subst h2
      exact ⟨by simp [hp1], by simp [hp1], hp2, fun h0 => absurd h0 (by decide)⟩
  · split at h
    · split at h
      · injection h with h1 h2
        subst h1
        subst h2
        next hguard _ _ =>
          simp only [Bool.or_eq_true, bne_iff_ne, ne_eq, not_or, Bool.not_eq_true] at hguard
          refine ⟨by simp [e2fsck_clear_recover, hq1], by simp [e2fsck_clear_recover, hq1],
                  by simp [e2fsck_clear_recover, hq2], ?_⟩
          intro _
          simp [e2fsck_clear_recover, hq1, hguard.1]
      · injection h with h1 h2
        subst h1
        subst h2
        exact ⟨by simp [hq1], by simp [hq1], hq2, fun h0 => absurd h0 (by decide)⟩
    · next hguard hrec =>
      injection h with h1 h2
      subst h1
      subst h2
      simp only [Bool.or_eq_true, bne_iff_ne, ne_eq, not_or, Bool.not_eq_true] at hguard
      simp only [Bool.not_eq_true] at hrec
      exact ⟨rfl, rfl, rfl, fun _ => ⟨hguard.1, hrec⟩⟩

lemma init_inode_spec (ctx : Ctx) (env : Env) (w : World) (inum : Nat)
    (w' : World) (res : Except Nat JournalT)
    (h : e2fsck_journal_init_inode ctx env w inum = (w', res)) :
    w'.super = w.super ∧ w'.disk = w.disk ∧
    (∀ J, res = .ok J →
      J.j_sb_buffer.b_uptodate = false ∧ J.j_sb_buffer.b_dirty = false ∧
      J.j_sb_buffer.b_err = 0) ∧
    (∀ r, res = .error r → r ≠ 0) := by
  unfold e2fsck_journal_init_inode getblk at h
  simp only [] at h
  split at h
  next hre =>
    injection h with h1 h2
    subst h1
    subst h2
    refine ⟨rfl, rfl, ?_, ?_⟩
    · intro J hJ
      simp at hJ
    · intro r hr
      simp only [Except.error.injEq] at hr
      subst hr
      exact hre
  · split at h
    · injection h with h1 h2
      subst h1
      subst h2
      refine ⟨rfl, rfl, ?_, ?_⟩
      · intro J hJ
        simp at hJ
      · intro r hr
        simp only [Except.error.injEq] at hr
        subst hr
        decide
    · injection h with h1 h2
      subst h1
      subst h2
      refine ⟨rfl, rfl, ?_, ?_⟩
      · intro J hJ
        simp only [Except.ok.injEq] at hJ
        subst hJ
        exact ⟨rfl, rfl, rfl⟩
      · intro r hr
        simp at hr

lemma gj_uuid2_spec (ctx : Ctx) (env : Env) (w : World)
    (w' : World) (res : Except Nat JournalT)
    (h : e2fsck_get_journal_uuid2 ctx env w = (w', res)) :
    w'.disk = w.disk ∧
    (∀ J, res = .ok J →
      w'.super.s_journal_uuid = 0 ∧
      w'.super.s_journal_dev = w.super.s_journal_dev ∧
      J.j_sb_buffer.b_uptodate = false ∧ J.j_sb_buffer.b_dirty = false ∧
      J.j_sb_buffer.b_err = 0) ∧
    (∀ r, res = .error r → r ≠ 0) := by
  obtain ⟨hp1, hp2, -, -⟩ := fix_problem_pres w .PR_0_JOURNAL_BAD_UUID
  unfold e2fsck_get_journal_uuid2 at h
  simp only [] at h
  split at h
  · split at h
    · obtain ⟨k1, k2, k3, k4⟩ := init_inode_spec _ _ _ _ _ _ h
      refine ⟨by simp [k2, hp2], ?_, k4⟩
      intro J hJ
      obtain ⟨hb1, hb2, hb3⟩ := k3 J hJ
      refine ⟨by simp [k1], by simp [k1, hp1], hb1, hb2, hb3⟩
    · injection h with h1 h2
      subst h1
      subst h2
      refine ⟨hp2, ?_, ?_⟩
      · intro J hJ
        simp at hJ
      · intro r hr
        simp only [Except.error.injEq] at hr
        subst hr
        decide
  · next huuid =>
    obtain ⟨k1, k2, k3, k4⟩ := init_inode_spec _ _ _ _ _ _ h
    refine ⟨k2, ?_, k4⟩
    intro J hJ
    obtain ⟨hb1, hb2, hb3⟩ := k3 J hJ
    have huuid0 : w.super.s_journal_uuid = 0 := by
      by_contra hne
      exact huuid hne
    exact ⟨by rw [k1, huuid0], by rw [k1], hb1, hb2, hb3⟩

lemma gj_dev2_spec (ctx : Ctx) (env : Env) (w : World)
    (w' : World) (res : Except Nat JournalT)
    (h : e2fsck_get_journal_dev2 ctx env w = (w', res)) :
    w'.disk = w.disk ∧
    (∀ J, res = .ok J →
      w'.super.s_journal_dev = 0 ∧ w'.super.s_journal_uuid = 0 ∧
      J.j_sb_buffer.b_uptodate = false ∧ J.j_sb_buffer.b_dirty = false ∧
      J.j_sb_buffer.b_err = 0) ∧
    (∀ r, res = .error r → r ≠ 0) := by
  obtain ⟨hp1, hp2, -, -⟩ := fix_problem_pres w .PR_0_JOURNAL_BAD_DEV
  unfold e2fsck_get_journal_dev2 at h
  simp only [] at h
  split at h
  · split at h
    · obtain ⟨k1, k2, k3⟩ := gj_uuid2_spec _ _ _ _ _ h
      refine ⟨by simp [k1, hp2], ?_, k3⟩
      intro J hJ
      obtain ⟨hb1, hb2, hb3, hb4, hb5⟩ := k2 J hJ
      exact ⟨by simp [hb2], hb1, hb3, hb4, hb5⟩
    · injection h with h1 h2
      subst h1
      subst h2
      refine ⟨hp2, ?_, ?_⟩
      · intro J hJ
        simp at hJ
      · intro r hr
        simp only [Except.error.injEq] at hr
        subst hr
        decide
  · next hdev =>
    obtain ⟨k1, k2, k3⟩ := gj_uuid2_spec _ _ _ _ _ h
    refine ⟨k1, ?_, k3⟩
    intro J hJ
    obtain ⟨hb1, hb2, hb3, hb4, hb5⟩ := k2 J hJ
    have hdev0 : w.super.s_journal_dev = 0 := by
      by_contra hne
      exact hdev hne
    exact ⟨by rw [hb2, hdev0], hb1, hb3, hb4, hb5⟩

lemma gj_inum_spec (ctx : Ctx) (env : Env) (w : World)
    (w' : World) (res : Except Nat JournalT)
    (h : e2fsck_get_journal_inum ctx env w = (w', res)) :
    w'.disk = w.disk ∧
    (∀ J, res = .ok J →
      w'.super.s_journal_dev = 0 ∧ w'.super.s_journal_uuid = 0 ∧
      J.j_sb_buffer.b_uptodate = false ∧ J.j_sb_buffer.b_dirty = false ∧
      J.j_sb_buffer.b_err = 0) ∧
    (∀ r, res = .error r → r ≠ 0) := by
  unfold e2fsck_get_journal_inum at h
  split at h
  · injection h with h1 h2
    subst h1
    subst h2
    refine ⟨rfl, ?_, ?_⟩
    · intro J hJ
      simp at hJ
    · intro r hr
      simp only [Except.error.injEq] at hr
      subst hr
      decide
  · exact gj_dev2_spec _ _ _ _ _ h

lemma gj_hj_uuid_spec (ctx : Ctx) (env : Env) (w : World)
    (w' : World) (res : Except Nat JournalT)
    (h : e2fsck_get_journal_hj_uuid ctx env w = (w', res)) :
    w'.disk = w.disk ∧
    (∀ J, res = .ok J →
      w'.super.s_journal_dev = 0 ∧ w'.super.s_journal_uuid = 0 ∧
      J.j_sb_buffer.b_uptodate = false ∧ J.j_sb_buffer.b_dirty = false ∧
      J.j_sb_buffer.b_err = 0) ∧
    (∀ r, res = .error r → r ≠ 0) := by
  obtain ⟨hp1, hp2, -, -⟩ := fix_problem_pres w .PR_0_JOURNAL_UNSUPP_UUID
  unfold e2fsck_get_journal_hj_uuid at h
  simp only [] at h
  split at h
  · split at h
    · obtain ⟨k1, k2, k3⟩ := gj_inum_spec _ _ _ _ _ h
      exact ⟨by simp [k1, hp2], k2, k3⟩
    · injection h with h1 h2
      subst h1
      subst h2
      refine ⟨hp2, ?_, ?_⟩
      · intro J hJ
        simp at hJ
      · intro r hr
        simp only [Except.error.injEq] at hr
        subst hr
        decide
  · exact gj_inum_spec _ _ _ _ _ h

lemma gj_spec (ctx : Ctx) (env : Env) (w : World)
    (w' : World) (res : Except Nat JournalT)
    (h : e2fsck_get_journal ctx env w = (w', res)) :
    w'.disk = w.disk ∧
    (∀ J, res = .ok J →
      w'.super.s_journal_dev = 0 ∧ w'.super.s_journal_uuid = 0 ∧
      J.j_sb_buffer.b_uptodate = false ∧ J.j_sb_buffer.b_dirty = false ∧
      J.j_sb_buffer.b_err = 0) ∧
    (∀ r, res = .error r → r ≠ 0) := by
  obtain ⟨hp1, hp2, -, -⟩ := fix_problem_pres w .PR_0_JOURNAL_UNSUPP_DEV
  unfold e2fsck_get_journal at h
  simp only [] at h
  split at h
  · split at h
    · split at h
      · obtain ⟨k1, k2, k3⟩ := gj_hj_uuid_spec _ _ _ _ _ h
        exact ⟨by simp [k1, hp2], k2, k3⟩
      · injection h with h1 h2
        subst h1
        subst h2
        refine ⟨hp2, ?_, ?_⟩
        · intro J hJ
          simp at hJ
        · intro r hr
          simp only [Except.error.injEq] at hr
          subst hr
          decide
    · exact gj_hj_uuid_spec _ _ _ _ _ h
  · exact gj_dev2_spec _ _ _ _ _ h

lemma load_spec (ctx : Ctx) (w : World) (J : JournalT)
    (w' : World) (J' : JournalT) (r : Nat)
    (h : e2fsck_journal_load ctx w J = (w', J', r)) :
    w'.super.s_journal_dev = w.super.s_journal_dev ∧
    w'.super.s_journal_uuid = w.super.s_journal_uuid ∧
    w'.disk.reads ≤ w.disk.reads + 1 ∧
    w'.disk.writes = w.disk.writes ∧
    w'.disk.write_err = w.disk.write_err ∧
    J'.j_sb_buffer.b_dirty = J.j_sb_buffer.b_dirty := by
  obtain ⟨hr1, hr2, hr3, hr4⟩ := ll_read_spec w.disk J.j_sb_buffer
  unfold e2fsck_journal_load at h
  simp only [] at h
  split at h
  · simp only [Prod.mk.injEq] at h
    obtain ⟨h1, h2, h3⟩ := h
    subst h1
    subst h2
    exact ⟨rfl, rfl, by simpa using hr1, by simpa using hr2, by simpa using hr3,
           by simpa using hr4⟩
  · split at h
    · simp only [Prod.mk.injEq] at h
      obtain ⟨h1, h2, h3⟩ := h
      subst h2
      have hfb : e2fsck_journal_fix_bad_inode
          { w with disk := (ll_rw_block .READ w.disk J.j_sb_buffer).1 } = (w', r) := by
        rw [← h1, ← h3]
      obtain ⟨k1, k2, k3, -⟩ := fbi_spec _ _ _ hfb
      refine ⟨by simpa using k1, by simpa using k2, ?_, ?_, ?_, by simpa using hr4⟩
      · rw [k3]
        simpa using hr1
      · rw [k3]
        simpa using hr2
      · rw [k3]
        simpa using hr3
    · split at h
      · simp only [Prod.mk.injEq] at h
        obtain ⟨h1, h2, h3⟩ := h
        subst h1
        subst h2
        exact ⟨rfl, rfl, by simpa using hr1, by simpa using hr2, by simpa using hr3,
               by simpa using hr4⟩
      · split at h
        · simp only [Prod.mk.injEq] at h
          obtain ⟨h1, h2, h3⟩ := h
          subst h1
          subst h2
          exact ⟨rfl, rfl, by simpa using hr1, by simpa using hr2, by simpa using hr3,
                 by simpa using hr4⟩
        · split at h
          · simp only [Prod.mk.injEq] at h
            obtain ⟨h1, h2, h3⟩ := h
            subst h1
            subst h2
            exact ⟨rfl, rfl, by simpa using hr1, by simpa using hr2, by simpa using hr3,
                   by simpa using hr4⟩
          · split at h
            · simp only [Prod.mk.injEq] at h
              obtain ⟨h1, h2, h3⟩ := h
              subst h1
              subst h2
              exact ⟨rfl, rfl, by simpa using hr1, by simpa using hr2, by simpa using hr3,
                     by simpa using hr4⟩
            · split at h
              · simp only [Prod.mk.injEq] at h
                obtain ⟨h1, h2, h3⟩ := h
                subst h1
                subst h2
                exact ⟨rfl, rfl, by simpa using hr1, by simpa using hr2, by simpa using hr3,
                       by simpa using hr4⟩
              · split at h
                · simp only [Prod.mk.injEq] at h
                  obtain ⟨h1, h2, h3⟩ := h
                  subst h1
                  subst h2
                  exact ⟨rfl, rfl, by simpa using hr1, by simpa using hr2, by simpa using hr3,
                         by simpa using hr4⟩
                · simp only [Prod.mk.injEq] at h
                  obtain ⟨h1, h2, h3⟩ := h
                  subst h1
                  subst h2
                  exact ⟨rfl, rfl, by simpa using hr1, by simpa using hr2, by simpa using hr3,
                         by simpa using hr4⟩

lemma reset_super_spec (ctx : Ctx) (w : World) (J : JournalT)
    (w' : World) (J' : JournalT)
    (h : e2fsck_journal_reset_super ctx w J = (w', J')) :
    w'.super = w.super ∧
    (J.j_sb_buffer.b_dirty = false →
      w'.disk = w.disk ∧ J'.j_sb_buffer.b_dirty = false) := by
  unfold e2fsck_journal_reset_super at h
  simp only [ll_rw_block] at h
  simp only [Prod.mk.injEq] at h
  obtain ⟨h1, h2⟩ := h
  subst h1
  subst h2
  refine ⟨rfl, ?_⟩
  intro hd
  constructor <;> simp [hd]

lemma fcs_spec (ctx : Ctx) (w : World) (J : JournalT)
    (w' : World) (J' : JournalT) (r : Nat)
    (h : e2fsck_journal_fix_corrupt_super ctx w J = (w', J', r)) :
    (J.j_sb_buffer.b_dirty = false → w'.disk = w.disk) ∧
    (r = 0 → w.super.s_journal_dev = 0 → w.super.s_journal_uuid = 0 →
      ((w'.super.has_journal = true →
        w'.super.s_journal_dev = 0 ∧ w'.super.s_journal_uuid = 0) ∧
       (w'.super.has_journal = false → w'.super.recover = false))) := by
  obtain ⟨hp1, hp2, -, -⟩ := fix_problem_pres w .PR_0_JOURNAL_BAD_SUPER
  unfold e2fsck_journal_fix_corrupt_super at h
  simp only [] at h
  split at h
  next hhj =>
    split at h
    · rcases hrs : e2fsck_journal_reset_super ctx
          (fix_problem w .PR_0_JOURNAL_BAD_SUPER).2 J with ⟨wr, Jr⟩
      rw [hrs] at h
      simp only [Prod.mk.injEq] at h
      obtain ⟨h1, h2, h3⟩ := h
      subst h1
      subst h2
      subst h3
      obtain ⟨k1, k2⟩ := reset_super_spec ctx _ J wr Jr hrs
      refine ⟨?_, ?_⟩
      · intro hd
        obtain ⟨k2d, -⟩ := k2 hd
        simp [e2fsck_clear_recover, k2d, hp2]
      · intro _ hdev huuid
        constructor
        · intro _
          constructor
          · simp [e2fsck_clear_recover, k1, hp1, hdev]
          · simp [e2fsck_clear_recover, k1, hp1, huuid]
        · intro _
          simp [e2fsck_clear_recover]
    · simp only [Prod.mk.injEq] at h
      obtain ⟨h1, h2, h3⟩ := h
      subst h1
      subst h3
      refine ⟨fun _ => hp2, fun h0 => absurd h0 (by decide)⟩
  · rcases hfb : e2fsck_journal_fix_bad_inode w with ⟨wf, rf⟩
    rw [hfb] at h
    simp only [] at h
    obtain ⟨k1, k2, k3, k4⟩ := fbi_spec w wf rf hfb
    split at h
    · simp only [Prod.mk.injEq] at h
      obtain ⟨h1, h2, h3⟩ := h
      subst h1
      subst h3
      exact ⟨fun _ => k3, fun h0 => absurd h0 (by decide)⟩
    · next hne =>
      simp only [Prod.mk.injEq] at h
      obtain ⟨h1, h2, h3⟩ := h
      subst h1
      subst h3
      have hz : rf = 0 := by
        by_contra hc
        exact hne hc
      obtain ⟨k5, k6⟩ := k4 hz
      exact ⟨fun _ => k3, fun _ _ _ => ⟨fun hc => by simp [hc] at k5, fun _ => k6⟩⟩

lemma release_spec (ctx : Ctx) (w : World) (J : JournalT) (reset : Bool) :
    (e2fsck_journal_release ctx w J reset).super = w.super ∧
    (e2fsck_journal_release ctx w J reset).super_dirty = w.super_dirty ∧
    (e2fsck_journal_release ctx w J reset).disk.reads = w.disk.reads ∧
    (e2fsck_journal_release ctx w J reset).disk.writes ≤ w.disk.writes + 1 := by
  refine ⟨rfl, rfl, ?_, ?_⟩ <;>
  · simp only [e2fsck_journal_release, brelse, mark_buffer_dirty, ll_rw_block]
    split_ifs <;> simp

lemma loop_dev_uuid_aux (ctx : Ctx) :
    ∀ (n : Nat) (ans : List Bool), ans.length ≤ n → ∀ (sp : Ext2Super) (dirty : Bool),
      sp.s_journal_dev = 0 → sp.s_journal_uuid = 0 →
      (noHasJournalLoop ctx ans sp dirty).1.s_journal_dev = 0 ∧
      (noHasJournalLoop ctx ans sp dirty).1.s_journal_uuid = 0 := by
  intro n
  induction n with
  | zero =>
    intro ans hlen sp dirty h1 h2
    have hnil : ans = [] := List.length_eq_zero.mp (Nat.le_zero.mp hlen)
    subst hnil
    by_cases hhj : sp.has_journal = true
    · rw [noHasJournalLoop.eq_def]
      simp [hhj, h1, h2]
    · rw [noHasJournalLoop.eq_def]
      by_cases hro : ctx.ro = true <;> simp [hhj, hro, h1, h2]
  | succ n ih =>
    intro ans hlen sp dirty h1 h2
    cases ans with
    | nil =>
      by_cases hhj : sp.has_journal = true
      · rw [noHasJournalLoop.eq_def]
        simp [hhj, h1, h2]
      · rw [noHasJournalLoop.eq_def]
        by_cases hro : ctx.ro = true <;> simp [hhj, hro, h1, h2]
    | cons a1 restAns =>
      by_cases hhj : sp.has_journal = true
      · rw [noHasJournalLoop.eq_def]
        simp [hhj, h1, h2]
      · by_cases ha1 : a1 = true
        · by_cases hrec : sp.recover = true
          · cases restAns with
            | nil =>
              rw [noHasJournalLoop.eq_def]
              by_cases hro : ctx.ro = true <;> simp [hhj, ha1, hrec, hro, h1, h2]
            | cons a2 restAns2 =>
              by_cases ha2 : a2 = true
              · rw [noHasJournalLoop.eq_def]
                simp [hhj, ha1, hrec, ha2, noHasJournalClear]
              · have hih := ih restAns2 (by simp at hlen; omega) sp dirty h1 h2
                rw [noHasJournalLoop.eq_def]
                simpa [hhj, ha1, hrec, ha2] using hih
          · rw [noHasJournalLoop.eq_def]
            simp [hhj, ha1, hrec, noHasJournalClear]
        · rw [noHasJournalLoop.eq_def]
          by_cases hro : ctx.ro = true <;> simp [hhj, ha1, hro, h1, h2]

lemma loop_dev_uuid (ctx : Ctx) (ans : List Bool) (sp : Ext2Super) (dirty : Bool)
    (h1 : sp.s_journal_dev = 0) (h2 : sp.s_journal_uuid = 0) :
    (noHasJournalLoop ctx ans sp dirty).1.s_journal_dev = 0 ∧
    (noHasJournalLoop ctx ans sp dirty).1.s_journal_uuid = 0 :=
  loop_dev_uuid_aux ctx ans.length ans le_rfl sp dirty h1 h2

lemma loop_hj_rec_aux (ctx : Ctx) :
    ∀ (n : Nat) (ans : List Bool), ans.length ≤ n → ∀ (sp : Ext2Super) (dirty : Bool),
      ctx.ro = false →
      (noHasJournalLoop ctx ans sp dirty).1.has_journal = false →
      (noHasJournalLoop ctx ans sp dirty).1.recover = false := by
  intro n
  induction n with
  | zero =>
    intro ans hlen sp dirty hro hhj
    have hnil : ans = [] := List.length_eq_zero.mp (Nat.le_zero.mp hlen)
    subst hnil
    by_cases hsp : sp.has_journal = true
    · rw [noHasJournalLoop.eq_def] at hhj
      simp [hsp] at hhj
    · rw [noHasJournalLoop.eq_def] at hhj
      simp [hsp, hro] at hhj
  | succ n ih =>
    intro ans hlen sp dirty hro hhj
    cases ans with
    | nil =>
      by_cases hsp : sp.has_journal = true
      · rw [noHasJournalLoop.eq_def] at hhj
        simp [hsp] at hhj
      · rw [noHasJournalLoop.eq_def] at hhj
        simp [hsp, hro] at hhj
    | cons a1 restAns =>
      by_cases hsp : sp.has_journal = true
      · rw [noHasJournalLoop.eq_def] at hhj
        simp [hsp] at hhj
      · by_cases ha1 : a1 = true
        · by_cases hrec : sp.recover = true
          · cases restAns with
            | nil =>
              rw [noHasJournalLoop.eq_def] at hhj
              simp [hsp, ha1, hrec, hro] at hhj
            | cons a2 restAns2 =>
              by_cases ha2 : a2 = true
              · rw [noHasJournalLoop.eq_def]
                simp [hsp, ha1, hrec, ha2, noHasJournalClear]
              · have hred :
                    noHasJournalLoop ctx (a1 :: a2 :: restAns2) sp dirty =
                    noHasJournalLoop ctx restAns2 sp dirty := by
                  conv_lhs => rw [noHasJournalLoop.eq_def]
                  simp [hsp, ha1, hrec, ha2]
                rw [hred] at hhj ⊢
                exact ih restAns2 (by simp at hlen; omega) sp dirty hro hhj
          · rw [noHasJournalLoop.eq_def]
            simp [hsp, ha1, hrec, noHasJournalClear]
        · rw [noHasJournalLoop.eq_def] at hhj
          simp [hsp, ha1, hro] at hhj

lemma loop_hj_rec (ctx : Ctx) (ans : List Bool) (sp : Ext2Super) (dirty : Bool)
    (hro : ctx.ro = false)
    (hhj : (noHasJournalLoop ctx ans sp dirty).1.has_journal = false) :
    (noHasJournalLoop ctx ans sp dirty).1.recover = false :=
  loop_hj_rec_aux ctx ans.length ans le_rfl sp dirty hro hhj

lemma ll_write_data (d : Disk) (bh : BufferHead) :
    (ll_rw_block .WRITE d bh).2.b_data = bh.b_data := by
  simp only [ll_rw_block]
  split_ifs <;> simp

/-- C5: e2fsck_journal_release on a writable image with reset leaves the
on-disk journal superblock with start = 0 and sequence equal to the
handle's transaction sequence, regardless of prior values; with
reset = false only the sequence field of the block changes (stated for a
handle whose buffer mirrors the disk, as e2fsck_journal_load leaves it);
on a read-only image, with the buffer clean as the core keeps it, the
I/O channel is untouched. -/
theorem C5_theorem (ctx : Ctx) (w : World) (J : JournalT) (reset : Bool) :
    (ctx.ro = false → w.disk.write_err = 0 → reset = true →
      (e2fsck_journal_release ctx w J reset).disk.jsb.s_start = 0 ∧
      (e2fsck_journal_release ctx w J reset).disk.jsb.s_sequence =
        J.j_transaction_sequence) ∧
    (ctx.ro = false → w.disk.write_err = 0 → reset = false →
      J.j_sb_buffer.b_data = w.disk.jsb →
      (e2fsck_journal_release ctx w J reset).disk.jsb =
        { w.disk.jsb with s_sequence := J.j_transaction_sequence }) ∧
    (ctx.ro = true → J.j_sb_buffer.b_dirty = false →
      (e2fsck_journal_release ctx w J reset).disk = w.disk) := by
  refine ⟨?_, ?_, ?_⟩
  · intro h1 h2 h3
    subst h3
    simp [e2fsck_journal_release, brelse, mark_buffer_dirty, ll_rw_block, h1, h2]
  · intro h1 h2 h3 h4
    subst h3
    simp [e2fsck_journal_release, brelse, mark_buffer_dirty, ll_rw_block, h1, h2, h4]
  · intro h1 h2
    simp [e2fsck_journal_release, brelse, ll_rw_block, h1, h2]

/-- Witness for C5 at concrete inputs: releasing the loaded journal
handle with reset on the writable context zeroes the on-disk start and
writes the transaction sequence; on the read-only context nothing is
written. -/
theorem C5_witness :
    (e2fsck_journal_release ctxRW wBase jLoaded true).disk.jsb.s_start = 0 ∧
    (e2fsck_journal_release ctxRW wBase jLoaded true).disk.jsb.s_sequence =
      jLoaded.j_transaction_sequence ∧
    (e2fsck_journal_release ctxRO wBase jLoaded false).disk = wBase.disk := by
  refine ⟨((C5_theorem ctxRW wBase jLoaded true).1 rfl rfl rfl).1,
          ((C5_theorem ctxRW wBase jLoaded true).1 rfl rfl rfl).2,
          (C5_theorem ctxRO wBase jLoaded false).2.2 rfl rfl⟩

/-- Counterexample for C6 as frozen: the claim says the buffer is then
written synchronously, but e2fsck_journal_reset_super hands a clean
buffer to ll_rw_block WRITE, which is a no-op on a clean buffer; on a
loaded (uptodate, clean) handle no physical write is issued, the write
counter stays 0, and the on-disk sequence keeps its old value 99 while
the in-memory buffer already holds sequence 1. -/
theorem C6_counterexample :
    (e2fsck_journal_reset_super ctxRW
        { wBase with disk := { diskGood with jsb := { jsbGood with s_sequence := 99 } } }
        jLoaded).1.disk.writes = 0 ∧
    (e2fsck_journal_reset_super ctxRW
        { wBase with disk := { diskGood with jsb := { jsbGood with s_sequence := 99 } } }
        jLoaded).1.disk.jsb.s_sequence = 99 ∧
    (e2fsck_journal_reset_super ctxRW
        { wBase with disk := { diskGood with jsb := { jsbGood with s_sequence := 99 } } }
        jLoaded).2.j_sb_buffer.b_data.s_sequence = 1 := by
  decide

/-- C6 (amended): e2fsck_journal_reset_super keeps a pre-existing valid
V1 signature unchanged and otherwise stamps the journal magic with
block type V2 (the header sequence word at offset 8 is preserved either
way); every field beyond the 12-byte header is zeroed and then
block size, maxlen, first = 1 and sequence = 1 are set, leaving
start = 0; the buffer is then handed to rw_block WRITE, which issues no
physical write here because the buffer is clean on this path -- the
contents reach disk only when release_journal marks the buffer dirty
and releases it. -/
theorem C6_theorem (ctx : Ctx) (w : World) (J : JournalT) :
    ((J.j_sb_buffer.b_data.h_magic = JFS_MAGIC_NUMBER ∧
      J.j_sb_buffer.b_data.h_blocktype = JFS_SUPERBLOCK_V1) →
      (e2fsck_journal_reset_super ctx w J).2.j_sb_buffer.b_data.h_magic =
        JFS_MAGIC_NUMBER ∧
      (e2fsck_journal_reset_super ctx w J).2.j_sb_buffer.b_data.h_blocktype =
        JFS_SUPERBLOCK_V1 ∧
      (e2fsck_journal_reset_super ctx w J).2.j_sb_buffer.b_data.h_sequence =
        J.j_sb_buffer.b_data.h_sequence) ∧
    (¬(J.j_sb_buffer.b_data.h_magic = JFS_MAGIC_NUMBER ∧
       J.j_sb_buffer.b_data.h_blocktype = JFS_SUPERBLOCK_V1) →
      (e2fsck_journal_reset_super ctx w J).2.j_sb_buffer.b_data.h_magic =
        JFS_MAGIC_NUMBER ∧
      (e2fsck_journal_reset_super ctx w J).2.j_sb_buffer.b_data.h_blocktype =
        JFS_SUPERBLOCK_V2 ∧
      (e2fsck_journal_reset_super ctx w J).2.j_sb_buffer.b_data.h_sequence =
        J.j_sb_buffer.b_data.h_sequence) ∧
    ((e2fsck_journal_reset_super ctx w J).2.j_sb_buffer.b_data.s_blocksize =
        ctx.blocksize ∧
     (e2fsck_journal_reset_super ctx w J).2.j_sb_buffer.b_data.s_maxlen =
        J.j_maxlen ∧
     (e2fsck_journal_reset_super ctx w J).2.j_sb_buffer.b_data.s_first = 1 ∧
     (e2fsck_journal_reset_super ctx w J).2.j_sb_buffer.b_data.s_sequence = 1 ∧
     (e2fsck_journal_reset_super ctx w J).2.j_sb_buffer.b_data.s_start = 0 ∧
     (e2fsck_journal_reset_super ctx w J).2.j_sb_buffer.b_data.s_feature_compat = 0 ∧
     (e2fsck_journal_reset_super ctx w J).2.j_sb_buffer.b_data.s_feature_incompat = 0 ∧
     (e2fsck_journal_reset_super ctx w J).2.j_sb_buffer.b_data.s_feature_ro_compat = 0 ∧
     (e2fsck_journal_reset_super ctx w J).2.j_sb_buffer.b_data.rest =
        List.replicate J.j_sb_buffer.b_data.rest.length 0) ∧
    (J.j_sb_buffer.b_dirty = false →
      (e2fsck_journal_reset_super ctx w J).1.disk = w.disk) := by
  refine ⟨?_, ?_, ?_, ?_⟩
  · intro hv
    simp [e2fsck_journal_reset_super, ll_write_data, hv.1, hv.2, JFS_SUPERBLOCK_V1]
  · intro hv
    by_cases hm : J.j_sb_buffer.b_data.h_magic = JFS_MAGIC_NUMBER
    · have hb : ¬J.j_sb_buffer.b_data.h_blocktype = JFS_SUPERBLOCK_V1 := by
        intro hb
        exact hv ⟨hm, hb⟩
      simp [e2fsck_journal_reset_super, ll_write_data, hm, hb]
    · simp [e2fsck_journal_reset_super, ll_write_data, hm]
  · by_cases hm : J.j_sb_buffer.b_data.h_magic = JFS_MAGIC_NUMBER ∧
        J.j_sb_buffer.b_data.h_blocktype = JFS_SUPERBLOCK_V1
    · simp [e2fsck_journal_reset_super, ll_write_data, hm.1, hm.2, JFS_SUPERBLOCK_V1]
    · by_cases hm1 : J.j_sb_buffer.b_data.h_magic = JFS_MAGIC_NUMBER
      · have hb : ¬J.j_sb_buffer.b_data.h_blocktype = JFS_SUPERBLOCK_V1 := by
          intro hb
          exact hm ⟨hm1, hb⟩
        simp [e2fsck_journal_reset_super, ll_write_data, hm1, hb]
      · simp [e2fsck_journal_reset_super, ll_write_data, hm1]
  · intro hd
    exact ((reset_super_spec ctx w J _ _ rfl).2 hd).1

/-- Witness for C6 at a concrete input: the loaded V2 handle gets a
fresh V2 header with the prescribed fields and no physical write. -/
theorem C6_witness :
    ((e2fsck_journal_reset_super ctxRW wBase jLoaded).2.j_sb_buffer.b_data.h_magic =
      JFS_MAGIC_NUMBER ∧
     (e2fsck_journal_reset_super ctxRW wBase jLoaded).2.j_sb_buffer.b_data.h_blocktype =
      JFS_SUPERBLOCK_V2 ∧
     (e2fsck_journal_reset_super ctxRW wBase jLoaded).2.j_sb_buffer.b_data.h_sequence =
      jLoaded.j_sb_buffer.b_data.h_sequence) ∧
    (e2fsck_journal_reset_super ctxRW wBase jLoaded).1.disk = wBase.disk := by
  refine ⟨(C6_theorem ctxRW wBase jLoaded).2.1 (by decide),
          (C6_theorem ctxRW wBase jLoaded).2.2.2 rfl⟩

/-- C7: after the format and block-size checks of e2fsck_journal_load
pass, the on-disk maxlen is reconciled against the inode-derived
max_blocks: strictly smaller on disk caps max_blocks to the disk value
and loading proceeds (returns 0); strictly greater returns
CorruptSuperblock with max_blocks unchanged; equal leaves max_blocks
unchanged and loading proceeds. -/
theorem C7_theorem (ctx : Ctx) (w : World) (J : JournalT)
    (h0 : (ll_rw_block .READ w.disk J.j_sb_buffer).2.b_err = 0)
    (h1 : (ll_rw_block .READ w.disk J.j_sb_buffer).2.b_data.h_magic =
      JFS_MAGIC_NUMBER)
    (h2 : (ll_rw_block .READ w.disk J.j_sb_buffer).2.b_data.h_blocktype =
        JFS_SUPERBLOCK_V1 ∨
      (ll_rw_block .READ w.disk J.j_sb_buffer).2.b_data.h_blocktype =
        JFS_SUPERBLOCK_V2)
    (h3 : JFS_HAS_INCOMPAT_FEATURE
      (ll_rw_block .READ w.disk J.j_sb_buffer).2.b_data = false)
    (h4 : JFS_HAS_RO_COMPAT_FEATURE
      (ll_rw_block .READ w.disk J.j_sb_buffer).2.b_data = false)
    (h5 : (ll_rw_block .READ w.disk J.j_sb_buffer).2.b_data.s_blocksize =
      J.j_blocksize) :
    ((ll_rw_block .READ w.disk J.j_sb_buffer).2.b_data.s_maxlen < J.j_maxlen →
      (e2fsck_journal_load ctx w J).2.2 = 0 ∧
      (e2fsck_journal_load ctx w J).2.1.j_maxlen =
        (ll_rw_block .READ w.disk J.j_sb_buffer).2.b_data.s_maxlen) ∧
    ((ll_rw_block .READ w.disk J.j_sb_buffer).2.b_data.s_maxlen > J.j_maxlen →
      (e2fsck_journal_load ctx w J).2.2 = EXT2_ET_CORRUPT_SUPERBLOCK ∧
      (e2fsck_journal_load ctx w J).2.1.j_maxlen = J.j_maxlen) ∧
    ((ll_rw_block .READ w.disk J.j_sb_buffer).2.b_data.s_maxlen = J.j_maxlen →
      (e2fsck_journal_load ctx w J).2.2 = 0 ∧
      (e2fsck_journal_load ctx w J).2.1.j_maxlen = J.j_maxlen) := by
  rcases h2 with h2 | h2 <;>
  · refine ⟨?_, ?_, ?_⟩
    · intro hlt
      constructor <;>
        simp [e2fsck_journal_load, h0, h1, h2, h3, h4, h5, hlt,
              JFS_SUPERBLOCK_V1, JFS_SUPERBLOCK_V2, Nat.not_lt_of_lt hlt]
    · intro hgt
      constructor <;>
        simp [e2fsck_journal_load, h0, h1, h2, h3, h4, h5,
              Nat.lt_asymm hgt, hgt, JFS_SUPERBLOCK_V1, JFS_SUPERBLOCK_V2]
    · intro heq
      constructor <;>
        simp [e2fsck_journal_load, h0, h1, h2, h3, h4, h5, heq,
              JFS_SUPERBLOCK_V1, JFS_SUPERBLOCK_V2]

/-- Witness for C7 at a concrete input: the loaded-good scenario has
equal on-disk and inode-derived lengths, so loading proceeds with
max_blocks unchanged. -/
theorem C7_witness :
    (e2fsck_journal_load ctxRW wBase jFresh).2.2 = 0 ∧
    (e2fsck_journal_load ctxRW wBase jFresh).2.1.j_maxlen = jFresh.j_maxlen := by
  exact (C7_theorem ctxRW wBase jFresh (by decide) (by decide) (Or.inr (by decide))
    (by decide) (by decide) (by decide)).2.2 (by decide)

/-- C10: bmap reports a failure of the underlying block-mapping call
only on the diagnostic channel and still returns the phys output value,
so e2fsck_journal_init_inode behaves identically whatever the mapping
retval was -- its validation only tests the returned phys against 0,
and no caller can distinguish a mapping failure from a successfully
mapped block. -/
theorem C10_theorem (ctx : Ctx) (env : Env) (w : World) (inum e : Nat) :
    (bmap { env with bmap_err := e }).1 = env.bmap_phys ∧
    ((bmap { env with bmap_err := e }).2 = [] ↔ e = 0) ∧
    e2fsck_journal_init_inode ctx { env with bmap_err := e } w inum =
      e2fsck_journal_init_inode ctx env w inum := by
  refine ⟨rfl, ?_, rfl⟩
  by_cases he : e = 0 <;> simp [bmap, he]

/-- Counterexample for C2 as frozen: with the journal advertised, a
wrong on-disk magic, and a user who accepts the bad-inode repair,
e2fsck_journal_load returns 0 -- not BadInode -- and the filesystem
superblock is modified (the journal advertisement is cleared). -/
theorem C2_counterexample :
    (e2fsck_journal_load ctxRW wC2 jFresh).2.2 = 0 ∧
    (e2fsck_journal_load ctxRW wC2 jFresh).1.super ≠ wC2.super := by
  decide

/-- C2 (amended): when the journal superblock buffer reads back
successfully but its first word is not the journal magic,
e2fsck_journal_load invokes the interactive bad-inode repair path
(e2fsck_journal_fix_bad_inode) and returns its result; in particular,
when the superblock advertises a journal and the user declines the
repair, it returns BadInode and the filesystem superblock is left
unmodified. -/
theorem C2_theorem (ctx : Ctx) (w : World) (J : JournalT)
    (h0 : (ll_rw_block .READ w.disk J.j_sb_buffer).2.b_err = 0)
    (h1 : (ll_rw_block .READ w.disk J.j_sb_buffer).2.b_data.h_magic ≠
      JFS_MAGIC_NUMBER) :
    e2fsck_journal_load ctx w J =
      ((e2fsck_journal_fix_bad_inode
          { w with disk := (ll_rw_block .READ w.disk J.j_sb_buffer).1 }).1,
       { J with j_sb_buffer := (ll_rw_block .READ w.disk J.j_sb_buffer).2 },
       (e2fsck_journal_fix_bad_inode
          { w with disk := (ll_rw_block .READ w.disk J.j_sb_buffer).1 }).2) ∧
    (w.super.has_journal = true → w.answers.head? = some false →
      (e2fsck_journal_load ctx w J).2.2 = EXT2_ET_BAD_INODE_NUM ∧
      (e2fsck_journal_load ctx w J).1.super = w.super) := by
  have hload : e2fsck_journal_load ctx w J =
      ((e2fsck_journal_fix_bad_inode
          { w with disk := (ll_rw_block .READ w.disk J.j_sb_buffer).1 }).1,
       { J with j_sb_buffer := (ll_rw_block .READ w.disk J.j_sb_buffer).2 },
       (e2fsck_journal_fix_bad_inode
          { w with disk := (ll_rw_block .READ w.disk J.j_sb_buffer).1 }).2) := by
    unfold e2fsck_journal_load
    simp only []
    simp [h0, h1]
  refine ⟨hload, ?_⟩
  intro hhj hhead
  rw [hload]
  cases hans : w.answers with
  | nil => simp [hans] at hhead
  | cons a t =>
    have ha : a = false := by simpa [hans] using hhead
    subst ha
    unfold e2fsck_journal_fix_bad_inode
    simp only []
    simp [fix_problem, hans, hhj]

/-- Witness for C2 at a concrete input: journal advertised, wrong
magic, user declines -- load returns BadInode and the superblock is
unchanged. -/
theorem C2_witness :
    (e2fsck_journal_load ctxRW { wC2 with answers := [false] } jFresh).2.2 =
      EXT2_ET_BAD_INODE_NUM ∧
    (e2fsck_journal_load ctxRW { wC2 with answers := [false] } jFresh).1.super =
      { wC2 with answers := [false] }.super := by
  exact (C2_theorem ctxRW { wC2 with answers := [false] } jFresh
    (by decide) (by decide)).2 rfl rfl

/-- C3 (code bug, evaluated at the failing input): when
e2fsck_journal_load fails with UnsupportedFeature (unrecognised journal
block type) inside e2fsck_check_ext3_journal, the function returns that
error without releasing the journal superblock buffer or the journal
handle: the live-buffer count rises from 0 to 1 and stays there, as
does the live-journal-handle count.  The claim (and the spec's scoped
acquisition rule) say every exit path releases them. -/
theorem C3_theorem :
    (e2fsck_check_ext3_journal ctxRW envGood wC3).2 = EXT2_ET_UNSUPP_FEATURE ∧
    wC3.bh_count = 0 ∧ wC3.journal_count = 0 ∧
    (e2fsck_check_ext3_journal ctxRW envGood wC3).1.bh_count = 1 ∧
    (e2fsck_check_ext3_journal ctxRW envGood wC3).1.journal_count = 1 := by
  decide

/-- Counterexample for C8 as frozen: the bad-inode repair path clears
has_journal while recovery is not pending and the journal inode number
12 is not below the first non-reserved inode number 11, yet
valid_fs_state is cleared -- the claim says it would be preserved. -/
theorem C8_counterexample :
    (e2fsck_journal_fix_bad_inode
        { wBase with
          super := { superClean with has_journal := true, s_journal_inum := 12 }
          answers := [true] }).2 = 0 ∧
    (e2fsck_journal_fix_bad_inode
        { wBase with
          super := { superClean with has_journal := true, s_journal_inum := 12 }
          answers := [true] }).1.super.has_journal = false ∧
    superClean.recover = false ∧ ¬(12 < superClean.s_first_ino) ∧
    superClean.valid = true ∧
    (e2fsck_journal_fix_bad_inode
        { wBase with
          super := { superClean with has_journal := true, s_journal_inum := 12 }
          answers := [true] }).1.super.valid = false := by
  decide

/-- C8 (amended): when has_journal is cleared and recovery was pending
or the journal inode was reserved, valid_fs_state is cleared on both
clearing paths; with recovery not pending and a non-reserved inode,
valid_fs_state is preserved on the HAS_JOURNAL agreement path of the
no_has_journal loop, but the bad-inode repair path clears
valid_fs_state unconditionally. -/
theorem C8_theorem (ctx : Ctx) (w : World) (sp : Ext2Super) (dirty : Bool)
    (restAns : List Bool) :
    ((w.super.has_journal = true ∨ w.super.s_journal_inum ≠ 0) →
      w.answers.head? = some true →
      (e2fsck_journal_fix_bad_inode w).2 = 0 ∧
      (e2fsck_journal_fix_bad_inode w).1.super.has_journal = false ∧
      (e2fsck_journal_fix_bad_inode w).1.super.valid = false) ∧
    (sp.has_journal = false → sp.recover = false →
      (noHasJournalLoop ctx (true :: restAns) sp dirty).1.has_journal = false ∧
      (noHasJournalLoop ctx (true :: restAns) sp dirty).1.recover = false ∧
      (noHasJournalLoop ctx (true :: restAns) sp dirty).1.valid =
        (if sp.s_journal_inum < EXT2_FIRST_INODE sp then false else sp.valid)) ∧
    (sp.has_journal = false → sp.recover = true →
      (noHasJournalLoop ctx (true :: true :: restAns) sp dirty).1.has_journal =
        false ∧
      (noHasJournalLoop ctx (true :: true :: restAns) sp dirty).1.recover =
        false ∧
      (noHasJournalLoop ctx (true :: true :: restAns) sp dirty).1.valid =
        false) := by
  refine ⟨?_, ?_, ?_⟩
  · intro hg hhead
    cases hans : w.answers with
    | nil => simp [hans] at hhead
    | cons a t =>
      have ha : a = true := by simpa [hans] using hhead
      subst ha
      unfold e2fsck_journal_fix_bad_inode
      simp only []
      rcases hg with hg | hg
      · simp [fix_problem, hans, hg, e2fsck_clear_recover]
      · simp [fix_problem, hans, hg, e2fsck_clear_recover]
  · intro hhj hrec
    by_cases hlt : sp.s_journal_inum < sp.s_first_ino <;>
    · rw [noHasJournalLoop.eq_def]
      simp [hhj, hrec, noHasJournalClear, EXT2_FIRST_INODE, hlt]
  · intro hhj hrec
    rw [noHasJournalLoop.eq_def]
    simp [hhj, hrec, noHasJournalClear]

/-- Witness for C8 at concrete inputs: the bad-inode path clears valid;
the agreement path with a non-reserved inode and no pending recovery
keeps valid; the agreement path with pending recovery clears it. -/
theorem C8_witness :
    ((e2fsck_journal_fix_bad_inode
        { wBase with
          super := { superClean with has_journal := true, s_journal_inum := 12 }
          answers := [true] }).2 = 0 ∧
     (e2fsck_journal_fix_bad_inode
        { wBase with
          super := { superClean with has_journal := true, s_journal_inum := 12 }
          answers := [true] }).1.super.has_journal = false ∧
     (e2fsck_journal_fix_bad_inode
        { wBase with
          super := { superClean with has_journal := true, s_journal_inum := 12 }
          answers := [true] }).1.super.valid = false) ∧
    (noHasJournalLoop ctxRW [true] { superClean with s_journal_inum := 12 }
        false).1.valid =
      (if ({ superClean with s_journal_inum := 12 } : Ext2Super).s_journal_inum <
          EXT2_FIRST_INODE { superClean with s_journal_inum := 12 } then false
       else ({ superClean with s_journal_inum := 12 } : Ext2Super).valid) ∧
    (noHasJournalLoop ctxRW [true, true] { superClean with recover := true }
        false).1.valid = false := by
  refine ⟨(C8_theorem ctxRW
      { wBase with
        super := { superClean with has_journal := true, s_journal_inum := 12 }
        answers := [true] }
      superClean false [] ).1 (Or.inl rfl) rfl,
    ((C8_theorem ctxRW wBase { superClean with s_journal_inum := 12 } false
        []).2.1 rfl rfl).2.2,
    ((C8_theorem ctxRW wBase { superClean with recover := true } false
        []).2.2 rfl rfl).2.2⟩

/-- C9: e2fsck_run_ext3_journal refuses a read-only image immediately,
returning FILE_RO with no recovery attempt and no reopen (the world is
untouched); otherwise, whatever the recovery phase returned, it closes
and reopens the filesystem at the saved block size, superblock offset
and I/O manager (aborting via fatal_error only if the reopen itself
fails), then clears the recovery-needed bit, clearing EXT2_VALID_FS
exactly when the recovery phase returned non-zero, and returns the
recovery phase's result. -/
theorem C9_theorem (ctx : Ctx) (env : Env) (w : World) :
    (ctx.ro = true →
      e2fsck_run_ext3_journal ctx env w = (w, .done EXT2_ET_FILE_RO)) ∧
    (ctx.ro = false → env.reopen_err ≠ 0 →
      (e2fsck_run_ext3_journal ctx env w).2 = .fatal env.reopen_err) ∧
    (ctx.ro = false → env.reopen_err = 0 →
      (e2fsck_run_ext3_journal ctx env w).2 =
        .done (recover_ext3_journal ctx env w).2 ∧
      (e2fsck_run_ext3_journal ctx env w).1.super.recover = false ∧
      (e2fsck_run_ext3_journal ctx env w).1.super.valid =
        (if (recover_ext3_journal ctx env w).2 = 0 then env.reopen_super.valid
         else false) ∧
      (e2fsck_run_ext3_journal ctx env w).1.fs_open = true ∧
      (e2fsck_run_ext3_journal ctx env w).1.reopen_log =
        (recover_ext3_journal ctx env w).1.reopen_log ++
          [(ctx.blocksize, ctx.superblock, ctx.io_mgr)]) := by
  refine ⟨?_, ?_, ?_⟩
  · intro hro
    simp [e2fsck_run_ext3_journal, hro]
  · intro hro hne
    simp [e2fsck_run_ext3_journal, hro, hne]
  · intro hro hze
    have hvalid : ∀ b : Bool, ∀ n : Nat,
        (b && !(n != 0)) = (if n = 0 then b else false) := by
      intro b n
      by_cases hn : n = 0 <;> simp [hn]
    simp [e2fsck_run_ext3_journal, e2fsck_clear_recover, hro, hze, hvalid]

/-- Witness for C9 at concrete inputs: the read-only context refuses
with FILE_RO and an untouched world; the writable context returns the
recovery result. -/
theorem C9_witness :
    e2fsck_run_ext3_journal ctxRO envGood wBase =
      (wBase, .done EXT2_ET_FILE_RO) ∧
    (e2fsck_run_ext3_journal ctxRW envGood wBase).2 =
      .done (recover_ext3_journal ctxRW envGood wBase).2 ∧
    (e2fsck_run_ext3_journal ctxRW envGood wBase).1.super.recover = false := by
  refine ⟨(C9_theorem ctxRO envGood wBase).1 rfl,
          ((C9_theorem ctxRW envGood wBase).2.2 rfl rfl).1,
          ((C9_theorem ctxRW envGood wBase).2.2 rfl rfl).2.1⟩

/-- Counterexample for C1 as frozen: on a read-only image with the
has-journal bit clear, recovery pending, and a valid journal inode, a
user who declines the HAS_JOURNAL fix leaves e2fsck_check_ext3_journal
returning 0 with has_journal still clear and needs_recovery still set
-- exactly the case the claim parenthetically asserts is covered. -/
theorem C1_counterexample :
    (e2fsck_check_ext3_journal ctxRO envGood wC1).2 = 0 ∧
    (e2fsck_check_ext3_journal ctxRO envGood wC1).1.super.has_journal = false ∧
    (e2fsck_check_ext3_journal ctxRO envGood wC1).1.super.recover = true := by
  decide

/-- C1 (amended): on any return of 0 from e2fsck_check_ext3_journal, if
has_journal is set then the external-device field and the journal uuid
are zero; and on a writable image, if has_journal is clear then
needs_recovery is clear.  (On a read-only image needs_recovery can
survive a declined HAS_JOURNAL fix, and the inode number can be 0 when
has_journal is re-set after a bad-inode deletion, so those two parts of
the frozen claim are dropped.) -/
theorem C1_theorem (ctx : Ctx) (env : Env) (w w' : World) (r : Nat)
    (h : e2fsck_check_ext3_journal ctx env w = (w', r)) (hr : r = 0) :
    (w'.super.has_journal = true →
      w'.super.s_journal_dev = 0 ∧ w'.super.s_journal_uuid = 0) ∧
    (ctx.ro = false → w'.super.has_journal = false →
      w'.super.recover = false) := by
  subst hr
  unfold e2fsck_check_ext3_journal at h
  simp only [] at h
  split at h
  next hguard =>
    simp only [Prod.mk.injEq] at h
    obtain ⟨h1, -⟩ := h
    subst h1
    simp only [Bool.and_eq_true, Bool.not_eq_true', beq_iff_eq] at hguard
    obtain ⟨⟨⟨⟨ha, hb⟩, hc⟩, hd⟩, he⟩ := hguard
    refine ⟨?_, ?_⟩
    · intro hhj
      rw [ha] at hhj
      simp at hhj
    · intro _ _
      exact hb
  · rcases hg : e2fsck_get_journal ctx env w with ⟨w1, res⟩
    rw [hg] at h
    obtain ⟨hgd, hgok, hgerr⟩ := gj_spec ctx env w w1 res hg
    cases res with
    | error rv =>
      simp only [] at h
      split at h
      · obtain ⟨-, -, -, k4⟩ := fbi_spec w1 w' 0 h
        obtain ⟨k5, k6⟩ := k4 rfl
        exact ⟨fun hc2 => by simp [hc2] at k5, fun _ _ => k6⟩
      · simp only [Prod.mk.injEq] at h
        obtain ⟨-, h2⟩ := h
        exact absurd h2 (hgerr rv rfl)
    | ok J =>
      obtain ⟨hdev1, huuid1, hbu, hbd, hbe⟩ := hgok J rfl
      simp only [] at h
      rcases hl : e2fsck_journal_load ctx w1 J with ⟨w2, J2, rv⟩
      rw [hl] at h
      simp only [] at h
      obtain ⟨ld1, ld2, ld3, ld4, ld5, ld6⟩ := load_spec ctx w1 J w2 J2 rv hl
      split at h
      · split at h
        · rcases hc : e2fsck_journal_fix_corrupt_super ctx w2 J2 with ⟨w3, J3, r3⟩
          rw [hc] at h
          simp only [Prod.mk.injEq] at h
          obtain ⟨h1, h2⟩ := h
          subst h1
          obtain ⟨-, hfc⟩ := fcs_spec ctx w2 J2 _ J3 r3 hc
          have hres := hfc h2 (by rw [ld1, hdev1]) (by rw [ld2, huuid1])
          exact ⟨hres.1, fun _ => hres.2⟩
        · simp only [Prod.mk.injEq] at h
          obtain ⟨-, h2⟩ := h
          next hne _ => exact absurd h2 hne
      · rcases hlp : noHasJournalLoop ctx w2.answers w2.super w2.super_dirty with
          ⟨sp, dirty2, ans2⟩
        rw [hlp] at h
        simp only [] at h
        have hsp12 := loop_dev_uuid ctx w2.answers w2.super w2.super_dirty
          (by rw [ld1, hdev1]) (by rw [ld2, huuid1])
        rw [hlp] at hsp12
        have hsp1 : sp.s_journal_dev = 0 := hsp12.1
        have hsp2 : sp.s_journal_uuid = 0 := hsp12.2
        have hsp3 : ctx.ro = false → sp.has_journal = false →
            sp.recover = false := by
          intro hro hhjf
          have hh : (noHasJournalLoop ctx w2.answers w2.super
              w2.super_dirty).1.has_journal = false := by
            rw [hlp]
            exact hhjf
          have hl2 := loop_hj_rec ctx w2.answers w2.super w2.super_dirty hro hh
          rw [hlp] at hl2
          exact hl2
        split at h
        · split at h
          · simp only [Prod.mk.injEq] at h
            obtain ⟨h1, -⟩ := h
            subst h1
            rw [(release_spec ctx _ J2 true).1]
            obtain ⟨hq1, -, -, -⟩ :=
              fix_problem_pres
                { w2 with super := sp, super_dirty := dirty2, answers := ans2 }
                .PR_0_JOURNAL_RESET_JOURNAL
            constructor
            · intro _
              exact ⟨by simp [hq1, hsp1], by simp [hq1, hsp2]⟩
            · intro hro hhjf
              simp only [] at hhjf
              simp [hq1] at hhjf ⊢
              exact hsp3 hro hhjf
          · simp only [Prod.mk.injEq] at h
            obtain ⟨h1, -⟩ := h
            subst h1
            rw [(release_spec ctx _ J2 false).1]
            obtain ⟨hq1, -, -, -⟩ :=
              fix_problem_pres
                { w2 with super := sp, super_dirty := dirty2, answers := ans2 }
                .PR_0_JOURNAL_RESET_JOURNAL
            constructor
            · intro _
              exact ⟨by simp [hq1, hsp1], by simp [hq1, hsp2]⟩
            · intro hro hhjf
              simp [hq1] at hhjf ⊢
              exact hsp3 hro hhjf
        · simp only [Prod.mk.injEq] at h
          obtain ⟨h1, -⟩ := h
          subst h1
          rw [(release_spec ctx _ J2 false).1]
          constructor
          · intro _
            exact ⟨by simp [hsp1], by simp [hsp2]⟩
          · intro hro hhjf
            simp at hhjf ⊢
            exact hsp3 hro hhjf

/-- Witness for C1 at a concrete input: the clean-ext2 world returns 0
and satisfies the amended invariant. -/
theorem C1_witness :
    ((e2fsck_check_ext3_journal ctxRW envGood wBase).1.super.has_journal = true →
      (e2fsck_check_ext3_journal ctxRW envGood wBase).1.super.s_journal_dev = 0 ∧
      (e2fsck_check_ext3_journal ctxRW envGood wBase).1.super.s_journal_uuid = 0) ∧
    (ctxRW.ro = false →
      (e2fsck_check_ext3_journal ctxRW envGood wBase).1.super.has_journal = false →
      (e2fsck_check_ext3_journal ctxRW envGood wBase).1.super.recover = false) :=
  C1_theorem ctxRW envGood wBase
    (e2fsck_check_ext3_journal ctxRW envGood wBase).1
    (e2fsck_check_ext3_journal ctxRW envGood wBase).2 rfl rfl

/-- C4: across any run of e2fsck_check_ext3_journal and of
recover_ext3_journal -- that is, for every interleaving of rw_block,
wait_on_buffer, mark_dirty and release_buffer the core performs on the
journal superblock buffer, including the corrupt-superblock repair
path -- the underlying I/O channel sees at most one physical read and
at most one physical write of that block. -/
theorem C4_theorem (ctx : Ctx) (env : Env) (w : World) :
    ((e2fsck_check_ext3_journal ctx env w).1.disk.reads ≤ w.disk.reads + 1 ∧
     (e2fsck_check_ext3_journal ctx env w).1.disk.writes ≤ w.disk.writes + 1) ∧
    ((recover_ext3_journal ctx env w).1.disk.reads ≤ w.disk.reads + 1 ∧
     (recover_ext3_journal ctx env w).1.disk.writes ≤ w.disk.writes + 1) := by
  constructor
  · rcases hchk : e2fsck_check_ext3_journal ctx env w with ⟨wf, rf⟩
    simp only []
    unfold e2fsck_check_ext3_journal at hchk
    simp only [] at hchk
    split at hchk
    · simp only [Prod.mk.injEq] at hchk
      obtain ⟨h1, -⟩ := hchk
      subst h1
      omega
    · rcases hg : e2fsck_get_journal ctx env w with ⟨w1, res⟩
      rw [hg] at hchk
      obtain ⟨hgd, hgok, -⟩ := gj_spec ctx env w w1 res hg
      cases res with
      | error rv =>
        simp only [] at hchk
        split at hchk
        · obtain ⟨-, -, k3, -⟩ := fbi_spec w1 wf rf hchk
          rw [k3, hgd]
          omega
        · simp only [Prod.mk.injEq] at hchk
          obtain ⟨h1, -⟩ := hchk
          subst h1
          rw [hgd]
          omega
      | ok J =>
        obtain ⟨-, -, hbu, hbd, hbe⟩ := hgok J rfl
        simp only [] at hchk
        rcases hl : e2fsck_journal_load ctx w1 J with ⟨w2, J2, rv⟩
        rw [hl] at hchk
        simp only [] at hchk
        obtain ⟨-, -, ld3, ld4, -, ld6⟩ := load_spec ctx w1 J w2 J2 rv hl
        rw [hgd] at ld3 ld4
        split at hchk
        · split at hchk
          · rcases hc : e2fsck_journal_fix_corrupt_super ctx w2 J2 with ⟨w3, J3, r3⟩
            rw [hc] at hchk
            simp only [Prod.mk.injEq] at hchk
            obtain ⟨h1, -⟩ := hchk
            subst h1
            obtain ⟨hfd, -⟩ := fcs_spec ctx w2 J2 _ J3 r3 hc
            have hdirty : J2.j_sb_buffer.b_dirty = false := by rw [ld6, hbd]
            rw [hfd hdirty]
            omega
          · simp only [Prod.mk.injEq] at hchk
            obtain ⟨h1, -⟩ := hchk
            subst h1
            omega
        · rcases hlp : noHasJournalLoop ctx w2.answers w2.super w2.super_dirty with
            ⟨sp, dirty2, ans2⟩
          rw [hlp] at hchk
          simp only [] at hchk
          obtain ⟨-, hq2, -, -⟩ :=
            fix_problem_pres
              { w2 with super := sp, super_dirty := dirty2, answers := ans2 }
              .PR_0_JOURNAL_RESET_JOURNAL
          split at hchk
          · split at hchk
            · simp only [Prod.mk.injEq] at hchk
              obtain ⟨h1, -⟩ := hchk
              subst h1
              constructor
              · rw [(release_spec ctx _ J2 true).2.2.1]
                simpa [hq2] using ld3
              · refine le_trans (release_spec ctx _ J2 true).2.2.2 ?_
                simp [hq2]
                omega
            · simp only [Prod.mk.injEq] at hchk
              obtain ⟨h1, -⟩ := hchk
              subst h1
              constructor
              · rw [(release_spec ctx _ J2 false).2.2.1]
                simpa [hq2] using ld3
              · refine le_trans (release_spec ctx _ J2 false).2.2.2 ?_
                simp [hq2]
                omega
          · simp only [Prod.mk.injEq] at hchk
            obtain ⟨h1, -⟩ := hchk
            subst h1
            constructor
            · rw [(release_spec ctx _ J2 false).2.2.1]
              simpa using ld3
            · refine le_trans (release_spec ctx _ J2 false).2.2.2 ?_
              simp
              omega
  · rcases hrec : recover_ext3_journal ctx env w with ⟨wf, rf⟩
    simp only []
    unfold recover_ext3_journal at hrec
    simp only [] at hrec
    rcases hg : e2fsck_get_journal ctx env w with ⟨w1, res⟩
    rw [hg] at hrec
    obtain ⟨hgd, hgok, -⟩ := gj_spec ctx env w w1 res hg
    cases res with
    | error rv =>
      simp only [Prod.mk.injEq] at hrec
      obtain ⟨h1, -⟩ := hrec
      subst h1
      rw [hgd]
      omega
    | ok J =>
      obtain ⟨-, -, hbu, hbd, hbe⟩ := hgok J rfl
      simp only [] at hrec
      rcases hl : e2fsck_journal_load ctx w1 J with ⟨w2, J2, rv⟩
      rw [hl] at hrec
      simp only [] at hrec
      obtain ⟨-, -, ld3, ld4, -, ld6⟩ := load_spec ctx w1 J w2 J2 rv hl
      rw [hgd] at ld3 ld4
      split at hrec
      · simp only [Prod.mk.injEq] at hrec
        obtain ⟨h1, -⟩ := hrec
        subst h1
        omega
      · split at hrec
        · simp only [Prod.mk.injEq] at hrec
          obtain ⟨h1, -⟩ := hrec
          subst h1
          omega
        · simp only [Prod.mk.injEq] at hrec
          obtain ⟨h1, -⟩ := hrec
          subst h1
          constructor
          · rw [(release_spec ctx _ J2 true).2.2.1]
            omega
          · refine le_trans (release_spec ctx _ J2 true).2.2.2 ?_
            omega

end E2fsckJournal
